import Mathlib

/-!
Shallow embedding of the BreastNet++ notebook
(`BreastNetPP_GPU_Friendly.ipynb`): the CBAM attention gate, the
classification head of `BreastNetPP`, the `train` and `evaluate` loops,
the checkpoint/resume cell, the best-model tracking, and the
sklearn-style test metrics.

Real-valued tensors are modelled over `ℚ`.  The logistic sigmoid of the
source is modelled by the algebraic squashing map
`x ↦ (1 + x / (1 + |x|)) / 2`, which shares the properties the spec and
source comments rely on (range inside `[0, 1]`, value `1/2` at `0`,
strict monotonicity) while keeping every definition computable and every
witness decidable.  A rank-4 tensor is a shape record plus a total
indexing function, matching a `batch x channel x height x width` torch
tensor; convolution padding is modelled with integer indices and zero
padding, exactly as `nn.Conv2d` with `padding = kernel_size / 2` (floor).
-/

/-- Sum of `f 0 + f 1 + ... + f (n-1)`, the embedding of a reduction over
one tensor dimension of extent `n`. -/
def sumRange (n : Nat) (f : Nat → ℚ) : ℚ :=
  ((List.range n).map f).sum

/-- A rank-4 tensor `batch x channels x height x width`, as produced by the
backbone and consumed by `CBAM.forward`.  Indexing is total; claims only
constrain indices below the recorded shape. -/
structure Tensor4 where
  batch : Nat
  channels : Nat
  height : Nat
  width : Nat
  data : Nat → Nat → Nat → Nat → ℚ

/-- Embedding of `nn.ReLU`. -/
def reluQ (x : ℚ) : ℚ := max 0 x

/-- Embedding of `nn.Sigmoid`: the algebraic sigmoid
`(1 + x / (1 + |x|)) / 2`, a computable stand-in for the logistic
function with the same range and shape properties. -/
def sigmoidQ (x : ℚ) : ℚ := (1 + x / (1 + |x|)) / 2

theorem sigmoidQ_nonneg (x : ℚ) : 0 ≤ sigmoidQ x := by
  unfold sigmoidQ
  have h1 : (0 : ℚ) < 1 + |x| := by positivity
  have h3 : -(1 + |x|) ≤ x := by
    have := neg_abs_le x
    linarith
  have h2 : -1 ≤ x / (1 + |x|) := by
    rw [le_div_iff₀ h1]
    linarith
  linarith

theorem sigmoidQ_le_one (x : ℚ) : sigmoidQ x ≤ 1 := by
  unfold sigmoidQ
  have h1 : (0 : ℚ) < 1 + |x| := by positivity
  have h2 : x / (1 + |x|) ≤ 1 := by
    rw [div_le_one h1]
    have := le_abs_self x
    linarith
  linarith

/-- The `CBAM` module state: constructor arguments `channels`,
`reduction`, `kernel_size` plus the learnable weights of its layers —
`w1` for `nn.Conv2d(channels, channels // reduction, 1, bias=False)`,
`w2` for `nn.Conv2d(channels // reduction, channels, 1, bias=False)`,
and `wsp` for the spatial `nn.Conv2d(2, 1, kernel_size, padding=kernel_size // 2, bias=False)`
(indexed input-channel, kernel row, kernel column). -/
structure CBAM where
  channels : Nat
  reduction : Nat
  kernel_size : Nat
  w1 : Nat → Nat → ℚ
  w2 : Nat → Nat → ℚ
  wsp : Nat → Nat → Nat → ℚ

/-- Embedding of `CBAM.__init__(channels, reduction, kernel_size)`.  The
source performs no validation whatsoever: the bottleneck width is the
Python floor division `channels // reduction` and construction always
succeeds. -/
def mkCBAM (channels reduction kernel_size : Nat)
    (w1 w2 : Nat → Nat → ℚ) (wsp : Nat → Nat → Nat → ℚ) : CBAM :=
  ⟨channels, reduction, kernel_size, w1, w2, wsp⟩

/-- Embedding of `nn.AdaptiveAvgPool2d(1)` at batch `b`, channel `c`:
the global average over the spatial extent. -/
def gapQ (x : Tensor4) (b c : Nat) : ℚ :=
  (sumRange x.height (fun i => sumRange x.width (fun j => x.data b c i j)))
    / ((x.height : ℚ) * (x.width : ℚ))

/-- Hidden bottleneck activation of the channel-attention branch:
`ReLU(Conv2d(channels, channels // reduction, 1)(avgpool(x)))` at
bottleneck channel `o`. -/
def caMid (m : CBAM) (x : Tensor4) (b o : Nat) : ℚ :=
  reluQ (sumRange m.channels (fun c => m.w1 o c * gapQ x b c))

/-- Per-channel attention weight:
`Sigmoid(Conv2d(channels // reduction, channels, 1)(...))` at channel `c`. -/
def caOut (m : CBAM) (x : Tensor4) (b c : Nat) : ℚ :=
  sigmoidQ (sumRange (m.channels / m.reduction) (fun o => m.w2 c o * caMid m x b o))

/-- Embedding of `self.channel_attention(x)`: a `batch x channels x 1 x 1`
tensor of per-channel weights. -/
def channelAttention (m : CBAM) (x : Tensor4) : Tensor4 :=
  ⟨x.batch, m.channels, 1, 1, fun b c _ _ => caOut m x b c⟩

/-- Embedding of `x = x * ca` in `CBAM.forward`: the input broadcast-multiplied
by the per-channel weight vector. -/
def channelGated (m : CBAM) (x : Tensor4) : Tensor4 :=
  ⟨x.batch, x.channels, x.height, x.width,
    fun b c i j => x.data b c i j * (channelAttention m x).data b c 0 0⟩

/-- Embedding of `torch.max(x, dim=1)` at pixel `(i, j)`: the maximum of
the channel values (for a tensor with at least one channel). -/
def chanMaxQ (t : Tensor4) (b i j : Nat) : ℚ :=
  (((List.range t.channels).map (fun c => t.data b c i j)).foldl max (t.data b 0 i j))

/-- Embedding of `torch.mean(x, dim=1)` at pixel `(i, j)`. -/
def chanMeanQ (t : Tensor4) (b i j : Nat) : ℚ :=
  (sumRange t.channels (fun c => t.data b c i j)) / (t.channels : ℚ)

/-- Embedding of `torch.cat([max_out, mean_out], dim=1)`: a 2-channel map
whose channel 0 is the per-pixel channel maximum and channel 1 the
per-pixel channel mean. -/
def saInput (t : Tensor4) : Tensor4 :=
  ⟨t.batch, 2, t.height, t.width,
    fun b c i j => if c = 0 then chanMaxQ t b i j else chanMeanQ t b i j⟩

/-- Zero-padded read of a tensor at possibly out-of-range integer spatial
indices, as convolution padding does. -/
def padAt (t : Tensor4) (b c : Nat) (i j : Int) : ℚ :=
  if 0 ≤ i ∧ i < (t.height : Int) ∧ 0 ≤ j ∧ j < (t.width : Int) then
    t.data b c i.toNat j.toNat
  else 0

/-- Pre-activation of the spatial branch:
`Conv2d(2, 1, kernel_size, padding=kernel_size // 2, bias=False)` applied
to the 2-channel max/mean map, at pixel `(i, j)`. -/
def spatialPre (m : CBAM) (t : Tensor4) (b i j : Nat) : ℚ :=
  sumRange 2 (fun c => sumRange m.kernel_size (fun ki => sumRange m.kernel_size (fun kj =>
    m.wsp c ki kj *
      padAt t b c ((i : Int) + (ki : Int) - ((m.kernel_size / 2 : Nat) : Int))
        ((j : Int) + (kj : Int) - ((m.kernel_size / 2 : Nat) : Int)))))

/-- Embedding of `self.spatial_attention(sa_input)`: a
`batch x 1 x height x width` tensor of per-pixel weights. -/
def spatialAttention (m : CBAM) (t : Tensor4) : Tensor4 :=
  ⟨t.batch, 1, t.height, t.width, fun b _ i j => sigmoidQ (spatialPre m t b i j)⟩

/-- Embedding of `CBAM.forward`: channel gating first, then the spatial
mask computed from the channel-gated map, then the broadcast product. -/
def CBAM.forward (m : CBAM) (x : Tensor4) : Tensor4 :=
  let x1 := channelGated m x
  let sa := spatialAttention m (saInput x1)
  ⟨x1.batch, x1.channels, x1.height, x1.width,
    fun b c i j => x1.data b c i j * sa.data b 0 i j⟩

/-- C1: For every input feature map, the channel-attention stage
global-average-pools the map to a per-channel vector, passes it through
the bottleneck `channels → channels / reduction → channels` with a ReLU
between the two 1x1 convolutions and a sigmoid after, yielding a
`batch x channels x 1 x 1` weight tensor (exactly one weight per channel)
whose entries lie in `[0, 1]`; the stage's output is the original map
broadcast-multiplied by this per-channel vector. -/
theorem cbam_channel_attention_spec (m : CBAM) (x : Tensor4) :
    (channelAttention m x).batch = x.batch ∧
    (channelAttention m x).channels = m.channels ∧
    (channelAttention m x).height = 1 ∧
    (channelAttention m x).width = 1 ∧
    (∀ b c i j, 0 ≤ (channelAttention m x).data b c i j ∧
      (channelAttention m x).data b c i j ≤ 1) ∧
    (∀ b c, (channelAttention m x).data b c 0 0 =
      sigmoidQ (sumRange (m.channels / m.reduction)
        (fun o => m.w2 c o * reluQ (sumRange m.channels
          (fun cc => m.w1 o cc * gapQ x b cc))))) ∧
    (∀ b c i j, (channelGated m x).data b c i j =
      x.data b c i j * (channelAttention m x).data b c 0 0) := by
  refine ⟨rfl, rfl, rfl, rfl, ?_, fun b c => rfl, fun b c i j => rfl⟩
  intro b c i j
  exact ⟨sigmoidQ_nonneg _, sigmoidQ_le_one _⟩

/-- C3: Applying the attention gate never changes the shape of its input:
`CBAM.forward` returns a feature map of identical
`batch x channels x height x width` shape. -/
theorem cbam_shape_preservation (m : CBAM) (x : Tensor4) :
    (CBAM.forward m x).batch = x.batch ∧
    (CBAM.forward m x).channels = x.channels ∧
    (CBAM.forward m x).height = x.height ∧
    (CBAM.forward m x).width = x.width :=
  ⟨rfl, rfl, rfl, rfl⟩

theorem le_foldl_max_init (l : List ℚ) (init : ℚ) : init ≤ l.foldl max init := by
  induction l generalizing init with
  | nil => exact le_refl _
  | cons a t ih => exact le_trans (le_max_left init a) (ih (max init a))

theorem le_foldl_max_of_mem (l : List ℚ) :
    ∀ (init a : ℚ), a ∈ l → a ≤ l.foldl max init := by
  induction l with
  | nil =>
    intro init a ha
    cases ha
  | cons b t ih =>
    intro init a ha
    rcases List.mem_cons.mp ha with h | h
    · subst h
      exact le_trans (le_max_right init a) (le_foldl_max_init t _)
    · exact ih (max init b) a h

theorem foldl_max_eq_init_or_mem (l : List ℚ) :
    ∀ init : ℚ, l.foldl max init = init ∨ l.foldl max init ∈ l := by
  induction l with
  | nil => intro init; exact Or.inl rfl
  | cons a t ih =>
    intro init
    rcases ih (max init a) with h | h
    · rcases max_choice init a with hm | hm
      · exact Or.inl (by rw [List.foldl_cons, h, hm])
      · refine Or.inr ?_
        rw [List.foldl_cons, h, hm]
        exact List.mem_cons_self a t
    · exact Or.inr (List.mem_cons_of_mem a h)

/-- The per-pixel channel maximum bounds every channel value. -/
theorem chanMaxQ_is_ub (t : Tensor4) (b i j c : Nat) (hc : c < t.channels) :
    t.data b c i j ≤ chanMaxQ t b i j := by
  unfold chanMaxQ
  exact le_foldl_max_of_mem _ _ _
    (List.mem_map.mpr ⟨c, List.mem_range.mpr hc, rfl⟩)

/-- The per-pixel channel maximum is attained at some channel. -/
theorem chanMaxQ_attained (t : Tensor4) (b i j : Nat) (h : 0 < t.channels) :
    ∃ c, c < t.channels ∧ chanMaxQ t b i j = t.data b c i j := by
  unfold chanMaxQ
  rcases foldl_max_eq_init_or_mem
      ((List.range t.channels).map (fun c => t.data b c i j)) (t.data b 0 i j)
    with hm | hm
  · exact ⟨0, h, hm⟩
  · rcases List.mem_map.mp hm with ⟨c, hc, hval⟩
    exact ⟨c, List.mem_range.mp hc, hval.symm⟩

/-- C2: For every input feature map with at least one channel, the spatial
stage of `CBAM.forward` is computed from the channel-gated map: channel 0
of the 2-channel concatenation is the per-pixel maximum across channels
of the channel-gated map (an attained upper bound), channel 1 is the
per-pixel mean; a single `kernel_size` convolution produces one output
channel followed by a sigmoid, so the mask has shape
`batch x 1 x height x width` (one weight per pixel) with entries in
`[0, 1]`; and the gate's output is the channel-gated map
broadcast-multiplied by this mask. -/
theorem cbam_spatial_attention_spec (m : CBAM) (x : Tensor4)
    (hC : 0 < x.channels) :
    (spatialAttention m (saInput (channelGated m x))).batch = x.batch ∧
    (spatialAttention m (saInput (channelGated m x))).channels = 1 ∧
    (spatialAttention m (saInput (channelGated m x))).height = x.height ∧
    (spatialAttention m (saInput (channelGated m x))).width = x.width ∧
    (saInput (channelGated m x)).channels = 2 ∧
    (∀ b i j, 0 ≤ (spatialAttention m (saInput (channelGated m x))).data b 0 i j ∧
      (spatialAttention m (saInput (channelGated m x))).data b 0 i j ≤ 1) ∧
    (∀ b i j, (spatialAttention m (saInput (channelGated m x))).data b 0 i j =
      sigmoidQ (spatialPre m (saInput (channelGated m x)) b i j)) ∧
    (∀ b i j c, c < x.channels →
      (channelGated m x).data b c i j ≤ (saInput (channelGated m x)).data b 0 i j) ∧
    (∀ b i j, ∃ c, c < x.channels ∧
      (saInput (channelGated m x)).data b 0 i j = (channelGated m x).data b c i j) ∧
    (∀ b i j, (saInput (channelGated m x)).data b 1 i j =
      (sumRange x.channels (fun c => (channelGated m x).data b c i j)) / (x.channels : ℚ)) ∧
    (∀ b c i j, (CBAM.forward m x).data b c i j =
      (channelGated m x).data b c i j *
        (spatialAttention m (saInput (channelGated m x))).data b 0 i j) := by
  refine ⟨rfl, rfl, rfl, rfl, rfl, ?_, fun b i j => rfl, ?_, ?_,
    fun b i j => rfl, fun b c i j => rfl⟩
  · intro b i j
    exact ⟨sigmoidQ_nonneg _, sigmoidQ_le_one _⟩
  · intro b i j c hc
    exact chanMaxQ_is_ub (channelGated m x) b i j c hc
  · intro b i j
    exact chanMaxQ_attained (channelGated m x) b i j hC

/-- A concrete tiny CBAM configuration used to instantiate hypotheses. -/
def cbamUnit : CBAM := mkCBAM 1 1 1 (fun _ _ => 0) (fun _ _ => 0) (fun _ _ _ => 0)

/-- A concrete `1 x 1 x 1 x 1` feature map. -/
def unitMap : Tensor4 := ⟨1, 1, 1, 1, fun _ _ _ _ => 0⟩

/-- Witness for C2 at the concrete gate `cbamUnit` and map `unitMap`. -/
theorem cbam_spatial_attention_spec_witness :
    0 < unitMap.channels ∧
    ((spatialAttention cbamUnit (saInput (channelGated cbamUnit unitMap))).batch = unitMap.batch ∧
    (spatialAttention cbamUnit (saInput (channelGated cbamUnit unitMap))).channels = 1 ∧
    (spatialAttention cbamUnit (saInput (channelGated cbamUnit unitMap))).height = unitMap.height ∧
    (spatialAttention cbamUnit (saInput (channelGated cbamUnit unitMap))).width = unitMap.width ∧
    (saInput (channelGated cbamUnit unitMap)).channels = 2 ∧
    (∀ b i j, 0 ≤ (spatialAttention cbamUnit (saInput (channelGated cbamUnit unitMap))).data b 0 i j ∧
      (spatialAttention cbamUnit (saInput (channelGated cbamUnit unitMap))).data b 0 i j ≤ 1) ∧
    (∀ b i j, (spatialAttention cbamUnit (saInput (channelGated cbamUnit unitMap))).data b 0 i j =
      sigmoidQ (spatialPre cbamUnit (saInput (channelGated cbamUnit unitMap)) b i j)) ∧
    (∀ b i j c, c < unitMap.channels →
      (channelGated cbamUnit unitMap).data b c i j ≤
        (saInput (channelGated cbamUnit unitMap)).data b 0 i j) ∧
    (∀ b i j, ∃ c, c < unitMap.channels ∧
      (saInput (channelGated cbamUnit unitMap)).data b 0 i j =
        (channelGated cbamUnit unitMap).data b c i j) ∧
    (∀ b i j, (saInput (channelGated cbamUnit unitMap)).data b 1 i j =
      (sumRange unitMap.channels (fun c => (channelGated cbamUnit unitMap).data b c i j)) /
        (unitMap.channels : ℚ)) ∧
    (∀ b c i j, (CBAM.forward cbamUnit unitMap).data b c i j =
      (channelGated cbamUnit unitMap).data b c i j *
        (spatialAttention cbamUnit (saInput (channelGated cbamUnit unitMap))).data b 0 i j)) :=
  ⟨by decide, cbam_spatial_attention_spec cbamUnit unitMap (by decide)⟩

/-- The reference CBAM configuration of the divisibility edge case:
`channels = 10`, `reduction = 4` (which does not divide 10), default
`kernel_size = 7`, all weights zero. -/
def cbamNoDiv : CBAM := mkCBAM 10 4 7 (fun _ _ => 0) (fun _ _ => 0) (fun _ _ _ => 0)

/-- A concrete `1 x 10 x 1 x 1` all-ones feature map. -/
def demoMap : Tensor4 := ⟨1, 10, 1, 1, fun _ _ _ _ => 1⟩

/-- A sum over a range all of whose terms vanish is zero. -/
theorem sumRange_eq_zero (n : Nat) (f : Nat → ℚ) (h : ∀ i, i < n → f i = 0) :
    sumRange n f = 0 := by
  unfold sumRange
  apply List.sum_eq_zero
  intro x hx
  rcases List.mem_map.mp hx with ⟨i, hi, rfl⟩
  exact h i (List.mem_range.mp hi)

/-- The sigmoid of `0` is `1 / 2`. -/
theorem sigmoidQ_zero : sigmoidQ 0 = 1 / 2 := by
  norm_num [sigmoidQ]

/-- C4 counterexample: with `channels = 10` and `reduction = 4` the ratio
does not divide the channel count, yet construction succeeds (the
bottleneck width is the floor `10 / 4 = 2`) and even the first forward
pass runs, preserves the shape, and computes a definite value — the code
has no invalid-shape failure at construction time. -/
theorem cbam_construction_succeeds_cex :
    ¬ (4 ∣ 10) ∧
    cbamNoDiv.channels = 10 ∧
    cbamNoDiv.reduction = 4 ∧
    cbamNoDiv.channels / cbamNoDiv.reduction = 2 ∧
    (CBAM.forward cbamNoDiv demoMap).batch = 1 ∧
    (CBAM.forward cbamNoDiv demoMap).channels = 10 ∧
    (CBAM.forward cbamNoDiv demoMap).height = 1 ∧
    (CBAM.forward cbamNoDiv demoMap).width = 1 ∧
    (CBAM.forward cbamNoDiv demoMap).data 0 0 0 0 = 1 / 4 := by
  refine ⟨by decide, rfl, rfl, rfl, rfl, rfl, rfl, rfl, ?_⟩
  have hca : (channelAttention cbamNoDiv demoMap).data 0 0 0 0 = 1 / 2 := by
    show caOut cbamNoDiv demoMap 0 0 = 1 / 2
    have hz : sumRange (cbamNoDiv.channels / cbamNoDiv.reduction)
        (fun o => cbamNoDiv.w2 0 o * caMid cbamNoDiv demoMap 0 o) = 0 := by
      apply sumRange_eq_zero
      intro o _
      show (0 : ℚ) * caMid cbamNoDiv demoMap 0 o = 0
      rw [zero_mul]
    show sigmoidQ (sumRange (cbamNoDiv.channels / cbamNoDiv.reduction)
      (fun o => cbamNoDiv.w2 0 o * caMid cbamNoDiv demoMap 0 o)) = 1 / 2
    rw [hz, sigmoidQ_zero]
  have h1 : (channelGated cbamNoDiv demoMap).data 0 0 0 0 = 1 / 2 := by
    show demoMap.data 0 0 0 0 * (channelAttention cbamNoDiv demoMap).data 0 0 0 0 = 1 / 2
    rw [hca]
    show (1 : ℚ) * (1 / 2) = 1 / 2
    rw [one_mul]
  have h2 : (spatialAttention cbamNoDiv (saInput (channelGated cbamNoDiv demoMap))).data 0 0 0 0
      = 1 / 2 := by
    show sigmoidQ (spatialPre cbamNoDiv (saInput (channelGated cbamNoDiv demoMap)) 0 0 0) = 1 / 2
    have hz : spatialPre cbamNoDiv (saInput (channelGated cbamNoDiv demoMap)) 0 0 0 = 0 := by
      unfold spatialPre
      apply sumRange_eq_zero
      intro c _
      apply sumRange_eq_zero
      intro ki _
      apply sumRange_eq_zero
      intro kj _
      show (0 : ℚ) * padAt (saInput (channelGated cbamNoDiv demoMap)) 0 c
        ((0 : Int) + (ki : Int) - ((cbamNoDiv.kernel_size / 2 : Nat) : Int))
        ((0 : Int) + (kj : Int) - ((cbamNoDiv.kernel_size / 2 : Nat) : Int)) = 0
      rw [zero_mul]
    rw [hz, sigmoidQ_zero]
  show (channelGated cbamNoDiv demoMap).data 0 0 0 0 *
    (spatialAttention cbamNoDiv (saInput (channelGated cbamNoDiv demoMap))).data 0 0 0 0 = 1 / 4
  rw [h1, h2]
  norm_num

/-- C4 amended: when the reduction ratio does not divide the channel
count, `CBAM.__init__` does not fail — the source has no divisibility
guard; the bottleneck width silently becomes the floor division
`channels // reduction`, and the forward pass remains well defined and
shape preserving. -/
theorem cbam_construction_floor_spec (C r k : Nat) (w1 w2 : Nat → Nat → ℚ)
    (ws : Nat → Nat → Nat → ℚ) (x : Tensor4) (_h : ¬ r ∣ C) :
    (mkCBAM C r k w1 w2 ws).channels / (mkCBAM C r k w1 w2 ws).reduction = C / r ∧
    (CBAM.forward (mkCBAM C r k w1 w2 ws) x).batch = x.batch ∧
    (CBAM.forward (mkCBAM C r k w1 w2 ws) x).channels = x.channels ∧
    (CBAM.forward (mkCBAM C r k w1 w2 ws) x).height = x.height ∧
    (CBAM.forward (mkCBAM C r k w1 w2 ws) x).width = x.width :=
  ⟨rfl, rfl, rfl, rfl, rfl⟩

/-- Witness for the amended C4 at `channels = 10`, `reduction = 4`. -/
theorem cbam_construction_floor_spec_witness :
    ¬ ((4 : Nat) ∣ 10) ∧
    ((mkCBAM 10 4 7 (fun _ _ => 0) (fun _ _ => 0) (fun _ _ _ => 0)).channels /
        (mkCBAM 10 4 7 (fun _ _ => 0) (fun _ _ => 0) (fun _ _ _ => 0)).reduction = 10 / 4 ∧
      (CBAM.forward (mkCBAM 10 4 7 (fun _ _ => 0) (fun _ _ => 0) (fun _ _ _ => 0)) demoMap).batch =
        demoMap.batch ∧
      (CBAM.forward (mkCBAM 10 4 7 (fun _ _ => 0) (fun _ _ => 0) (fun _ _ _ => 0)) demoMap).channels =
        demoMap.channels ∧
      (CBAM.forward (mkCBAM 10 4 7 (fun _ _ => 0) (fun _ _ => 0) (fun _ _ _ => 0)) demoMap).height =
        demoMap.height ∧
      (CBAM.forward (mkCBAM 10 4 7 (fun _ _ => 0) (fun _ _ => 0) (fun _ _ _ => 0)) demoMap).width =
        demoMap.width) :=
  ⟨by decide,
    cbam_construction_floor_spec 10 4 7 (fun _ _ => 0) (fun _ _ => 0) (fun _ _ _ => 0)
      demoMap (by decide)⟩

/-- Embedding of `nn.Dropout(p)`: during training it zeroes the entries
selected by the (externally drawn) Bernoulli mask and rescales the rest
by `1 / (1 - p)`; in evaluation mode (`model.eval()`) it is the
identity. -/
def dropoutQ (training : Bool) (mask : Nat → Bool) (p : ℚ) (v : Nat → ℚ) : Nat → ℚ :=
  if training then (fun i => if mask i then 0 else v i / (1 - p)) else v

/-- Learnable state of the `BreastNetPP` classification head: the layers
after the CBAM gate — `fc1 = nn.Linear(channels, 128)` (weights and
bias) and `fc2 = nn.Linear(128, 1)` (weights and bias); the backbone
produces `channels = 1280` features in the reference configuration. -/
structure Head where
  channels : Nat
  fc1w : Nat → Nat → ℚ
  fc1b : Nat → ℚ
  fc2w : Nat → ℚ
  fc2b : ℚ

/-- Embedding of the tail of `BreastNetPP.forward` on the gated feature
map: `pool` (global average), flatten, `dropout1` (rate `0.5`),
`fc1` then `ReLU`, `dropout2` (rate `0.3`), `fc2`, `sigmoid`. -/
def headForward (hd : Head) (training : Bool) (m1 m2 : Nat → Bool)
    (x : Tensor4) (b : Nat) : ℚ :=
  let pooled : Nat → ℚ := fun c => gapQ x b c
  let d1 := dropoutQ training m1 (1 / 2) pooled
  let y1 : Nat → ℚ := fun o =>
    reluQ (hd.fc1b o + sumRange hd.channels (fun c => hd.fc1w o c * d1 c))
  let d2 := dropoutQ training m2 (3 / 10) y1
  sigmoidQ (hd.fc2b + sumRange 128 (fun o => hd.fc2w o * d2 o))

/-- C8: The classification head global-average-pools the gated map,
applies the two dense layers `channels → 128` and `128 → 1` separated by
a ReLU, with dropout stages at rates `1/2` then `3/10` that are the
identity outside training, and ends in a sigmoid; its output lies in
`[0, 1]` for every input, every mode, and every dropout mask. -/
theorem classifier_head_range_spec (hd : Head) (training : Bool)
    (m1 m2 : Nat → Bool) (x : Tensor4) (b : Nat) :
    (0 ≤ headForward hd training m1 m2 x b ∧ headForward hd training m1 m2 x b ≤ 1) ∧
    (headForward hd training m1 m2 x b =
      sigmoidQ (hd.fc2b + sumRange 128 (fun o => hd.fc2w o *
        dropoutQ training m2 (3 / 10)
          (fun o2 => reluQ (hd.fc1b o2 + sumRange hd.channels (fun c => hd.fc1w o2 c *
            dropoutQ training m1 (1 / 2) (fun c2 => gapQ x b c2) c)))
          o))) ∧
    (∀ (mk : Nat → Bool) (p : ℚ) (v : Nat → ℚ), dropoutQ false mk p v = v) ∧
    (∀ (mk : Nat → Bool) (p : ℚ) (v : Nat → ℚ) (i : Nat),
      dropoutQ true mk p v i = if mk i then 0 else v i / (1 - p)) :=
  ⟨⟨sigmoidQ_nonneg _, sigmoidQ_le_one _⟩, rfl, fun _ _ _ => rfl, fun _ _ _ _ => rfl⟩

/-- Embedding of `preds = (outputs > 0.5).float()`: threshold a predicted
probability at `1/2`. -/
def predQ (p : ℚ) : ℚ := if 1 / 2 < p then 1 else 0

/-- A sample of the evaluation loop: the model output probability for an
image paired with its ground-truth label, as in `preds == labels`. -/
def sampleCorrect (s : ℚ × ℚ) : Bool := decide (predQ s.1 = s.2)

/-- Embedding of `(preds == labels).sum().item()` for one batch. -/
def batchCorrect (b : List (ℚ × ℚ)) : Nat := b.countP sampleCorrect

/-- Embedding of the running `total += labels.size(0)` counter. -/
def totalSamples (batches : List (List (ℚ × ℚ))) : Nat :=
  (batches.map List.length).sum

/-- Embedding of `evaluate(model, loader, criterion)`.  Each batch is the
list of (model output, label) pairs; `crit` is the external `BCELoss`
collaborator giving the batch loss.  The function returns
`(running_loss / len(loader), correct / total)`; the Python divisions
raise `ZeroDivisionError` when `total = 0` (which also covers the empty
loader), modelled as `none`. -/
def evaluate (crit : List (ℚ × ℚ) → ℚ) (batches : List (List (ℚ × ℚ))) :
    Option (ℚ × ℚ) :=
  if totalSamples batches = 0 then none
  else some (((batches.map crit).sum) / (batches.length : ℚ),
    ((batches.map batchCorrect).sum : ℚ) / (totalSamples batches : ℚ))

/-- One pass of the training loop body over the batches: `step` is the
external forward/backward/optimizer collaborator mapping the current
parameter state and a batch to the updated state and the batch loss; the
result is the final state and the list of per-batch losses accumulated
into `running_loss`. -/
def trainSteps (step : List ℚ → List (ℚ × ℚ) → List ℚ × ℚ) :
    List ℚ → List (List (ℚ × ℚ)) → List ℚ × List ℚ
  | st, [] => (st, [])
  | st, b :: rest =>
    let r := step st b
    let rest2 := trainSteps step r.1 rest
    (rest2.1, r.2 :: rest2.2)

/-- Embedding of `train(model, loader, optimizer, criterion)`: returns
`running_loss / len(loader)` together with the updated parameters; the
division raises `ZeroDivisionError` on an empty loader, modelled as
`none`. -/
def train (step : List ℚ → List (ℚ × ℚ) → List ℚ × ℚ) (st : List ℚ)
    (batches : List (List (ℚ × ℚ))) : Option (List ℚ × ℚ) :=
  if batches.length = 0 then none
  else some ((trainSteps step st batches).1,
    (trainSteps step st batches).2.sum / (batches.length : ℚ))

/-- C7: For every sequence of evaluation batches with at least one
sample, `evaluate` returns the pair (mean of the per-batch losses,
accuracy), where a sample counts as correct exactly when its output
thresholded at `1/2` equals its label; if every thresholded prediction
equals its label the accuracy is exactly `1`, and if every thresholded
prediction is the inverse `1 - label` of its label the accuracy is
exactly `0`. -/
theorem evaluate_accuracy_spec (crit : List (ℚ × ℚ) → ℚ)
    (batches : List (List (ℚ × ℚ))) (h : 0 < totalSamples batches) :
    evaluate crit batches = some ((batches.map crit).sum / (batches.length : ℚ),
      ((batches.map batchCorrect).sum : ℚ) / (totalSamples batches : ℚ)) ∧
    (∀ b ∈ batches, ∀ s ∈ b, (sampleCorrect s = true ↔ predQ s.1 = s.2)) ∧
    ((∀ b ∈ batches, ∀ s ∈ b, predQ s.1 = s.2) →
      ((batches.map batchCorrect).sum : ℚ) / (totalSamples batches : ℚ) = 1) ∧
    ((∀ b ∈ batches, ∀ s ∈ b, predQ s.1 = 1 - s.2) →
      ((batches.map batchCorrect).sum : ℚ) / (totalSamples batches : ℚ) = 0) := by
  refine ⟨?_, ?_, ?_, ?_⟩
  · unfold evaluate
    rw [if_neg (by omega)]
  · intro b _ s _
    constructor
    · exact of_decide_eq_true
    · exact decide_eq_true
  · intro hall
    have hc : (batches.map batchCorrect) = batches.map List.length := by
      apply List.map_congr_left
      intro b hb
      unfold batchCorrect
      apply List.countP_eq_length.mpr
      intro s hs
      exact decide_eq_true (hall b hb s hs)
    rw [hc]
    show ((totalSamples batches : ℚ)) / (totalSamples batches : ℚ) = 1
    apply div_self
    exact Nat.cast_ne_zero.mpr (by omega)
  · intro hall
    have hc : ∀ b ∈ batches, batchCorrect b = 0 := by
      intro b hb
      unfold batchCorrect
      apply List.countP_eq_zero.mpr
      intro s hs hcontra
      have heq : predQ s.1 = s.2 := of_decide_eq_true hcontra
      have hinv := hall b hb s hs
      have h2 : s.2 = 1 - s.2 := heq.symm.trans hinv
      have hhalf : s.2 = 1 / 2 := by linarith
      rw [hhalf] at heq
      unfold predQ at heq
      split at heq <;> norm_num at heq
    have hsum : (batches.map batchCorrect).sum = 0 := by
      apply List.sum_eq_zero
      intro n hn
      rcases List.mem_map.mp hn with ⟨b, hb, rfl⟩
      exact hc b hb
    rw [hsum]
    norm_num

/-- The constantly-zero loss collaborator, for witnesses. -/
def critZero : List (ℚ × ℚ) → ℚ := fun _ => 0

/-- One batch with one sample whose output `1` thresholds to its label `1`. -/
def demoBatches : List (List (ℚ × ℚ)) := [[(1, 1)]]

/-- Witness for C7 at one concrete non-empty batch list. -/
theorem evaluate_accuracy_spec_witness :
    0 < totalSamples demoBatches ∧
    (evaluate critZero demoBatches =
      some ((demoBatches.map critZero).sum / (demoBatches.length : ℚ),
        ((demoBatches.map batchCorrect).sum : ℚ) / (totalSamples demoBatches : ℚ)) ∧
    (∀ b ∈ demoBatches, ∀ s ∈ b, (sampleCorrect s = true ↔ predQ s.1 = s.2)) ∧
    ((∀ b ∈ demoBatches, ∀ s ∈ b, predQ s.1 = s.2) →
      ((demoBatches.map batchCorrect).sum : ℚ) / (totalSamples demoBatches : ℚ) = 1) ∧
    ((∀ b ∈ demoBatches, ∀ s ∈ b, predQ s.1 = 1 - s.2) →
      ((demoBatches.map batchCorrect).sum : ℚ) / (totalSamples demoBatches : ℚ) = 0)) :=
  ⟨by decide, evaluate_accuracy_spec critZero demoBatches (by decide)⟩

/-- C10: On an empty data loader both loops hit a division by zero
(`running_loss / len(loader)` and, in evaluation, `correct / total`), so
neither `train` nor `evaluate` returns a value. -/
theorem empty_loader_no_result (step : List ℚ → List (ℚ × ℚ) → List ℚ × ℚ)
    (st : List ℚ) (crit : List (ℚ × ℚ) → ℚ) :
    train step st [] = none ∧ evaluate crit [] = none := by
  constructor
  · simp [train]
  · simp [evaluate, totalSamples]

/-- The checkpoint record written at the end of every epoch:
`{epoch, model_state_dict, optimizer_state_dict, val_loss, val_accuracy}`.
Parameter and optimizer states are modelled as flat value lists. -/
structure Checkpoint where
  epoch : Nat
  model_state : List ℚ
  optimizer_state : List ℚ
  val_loss : ℚ
  val_accuracy : ℚ

/-- The state established by the top of the resume cell: `start_epoch`,
`best_val_acc`, the (possibly loaded) model and optimizer states, and
the line printed. -/
structure ResumeInit where
  start_epoch : Nat
  best_val_acc : ℚ
  model : List ℚ
  opt : List ℚ
  message : String

/-- Embedding of the resume branch of cell 23513830: if a checkpoint is
present at the resume path it is loaded — model parameters, optimizer
state, `start_epoch = checkpoint['epoch']`,
`best_val_acc = checkpoint.get('val_accuracy', 0.0)`; otherwise
everything starts fresh with `start_epoch = 0` and a logged message,
without an error. -/
def resumeInit : Option Checkpoint → List ℚ → List ℚ → ResumeInit
  | some c, _, _ =>
    ⟨c.epoch, c.val_accuracy, c.model_state, c.optimizer_state,
      "Resumed training from epoch " ++ toString c.epoch⟩
  | none, model0, opt0 =>
    ⟨0, 0, model0, opt0, "No checkpoint found or resume path not set. Starting fresh..."⟩

/-- Embedding of `range(start_epoch, num_epochs)`: the 0-indexed epochs
the loop will run. -/
def epochRange (start_epoch num_epochs : Nat) : List Nat :=
  (List.range (num_epochs - start_epoch)).map (fun i => start_epoch + i)

/-- The 1-indexed epoch numbers the loop prints and records
(`epoch + 1` for each loop iteration). -/
def displayedEpochs (start_epoch num_epochs : Nat) : List Nat :=
  (epochRange start_epoch num_epochs).map (fun e => e + 1)

/-- The checkpoint dictionary built at the end of loop iteration `e`:
its recorded epoch field is `e + 1`. -/
def epochCheckpoint (e : Nat) (model opt : List ℚ) (vl va : ℚ) : Checkpoint :=
  ⟨e + 1, model, opt, vl, va⟩

/-- C5: With no checkpoint the driver starts fresh at epoch 0 with a
logged message and no error; with a checkpoint it loads the model and
optimizer states and resumes at the recorded epoch plus one — the first
loop iteration is `start_epoch = checkpoint['epoch']`, whose 1-indexed
(printed and recorded) number is `checkpoint['epoch'] + 1`, so a
checkpoint recorded at epoch 4 resumes training at epoch 5. -/
theorem resume_logic_spec (c : Checkpoint) (model0 opt0 : List ℚ)
    (num_epochs : Nat) (h : c.epoch < num_epochs) :
    (resumeInit none model0 opt0).start_epoch = 0 ∧
    (resumeInit none model0 opt0).model = model0 ∧
    (resumeInit none model0 opt0).opt = opt0 ∧
    (resumeInit none model0 opt0).message =
      "No checkpoint found or resume path not set. Starting fresh..." ∧
    (resumeInit (some c) model0 opt0).start_epoch = c.epoch ∧
    (resumeInit (some c) model0 opt0).model = c.model_state ∧
    (resumeInit (some c) model0 opt0).opt = c.optimizer_state ∧
    (resumeInit (some c) model0 opt0).best_val_acc = c.val_accuracy ∧
    (∀ e m o vl va, (epochCheckpoint e m o vl va).epoch = e + 1) ∧
    (epochRange (resumeInit (some c) model0 opt0).start_epoch num_epochs).head? =
      some c.epoch ∧
    (displayedEpochs (resumeInit (some c) model0 opt0).start_epoch num_epochs).head? =
      some (c.epoch + 1) := by
  refine ⟨rfl, rfl, rfl, rfl, rfl, rfl, rfl, rfl, fun e m o vl va => rfl, ?_, ?_⟩
  · show (epochRange c.epoch num_epochs).head? = some c.epoch
    unfold epochRange
    obtain ⟨d, hd⟩ : ∃ d, num_epochs - c.epoch = d + 1 :=
      ⟨num_epochs - c.epoch - 1, by omega⟩
    rw [hd, List.range_succ_eq_map]
    simp
  · show (displayedEpochs c.epoch num_epochs).head? = some (c.epoch + 1)
    unfold displayedEpochs epochRange
    obtain ⟨d, hd⟩ : ∃ d, num_epochs - c.epoch = d + 1 :=
      ⟨num_epochs - c.epoch - 1, by omega⟩
    rw [hd, List.range_succ_eq_map]
    simp

/-- A concrete checkpoint recorded at epoch 4. -/
def demoCheckpoint : Checkpoint := ⟨4, [1], [2], 1 / 4, 1 / 2⟩

/-- Witness for C5 at the concrete checkpoint recorded at epoch 4 with
10 total epochs: training resumes at displayed epoch 5. -/
theorem resume_logic_spec_witness :
    demoCheckpoint.epoch < 10 ∧
    ((resumeInit none ([0] : List ℚ) ([0] : List ℚ)).start_epoch = 0 ∧
    (resumeInit none ([0] : List ℚ) ([0] : List ℚ)).model = ([0] : List ℚ) ∧
    (resumeInit none ([0] : List ℚ) ([0] : List ℚ)).opt = ([0] : List ℚ) ∧
    (resumeInit none ([0] : List ℚ) ([0] : List ℚ)).message =
      "No checkpoint found or resume path not set. Starting fresh..." ∧
    (resumeInit (some demoCheckpoint) ([0] : List ℚ) ([0] : List ℚ)).start_epoch =
      demoCheckpoint.epoch ∧
    (resumeInit (some demoCheckpoint) ([0] : List ℚ) ([0] : List ℚ)).model =
      demoCheckpoint.model_state ∧
    (resumeInit (some demoCheckpoint) ([0] : List ℚ) ([0] : List ℚ)).opt =
      demoCheckpoint.optimizer_state ∧
    (resumeInit (some demoCheckpoint) ([0] : List ℚ) ([0] : List ℚ)).best_val_acc =
      demoCheckpoint.val_accuracy ∧
    (∀ e m o vl va, (epochCheckpoint e m o vl va).epoch = e + 1) ∧
    (epochRange (resumeInit (some demoCheckpoint) ([0] : List ℚ) ([0] : List ℚ)).start_epoch
      10).head? = some demoCheckpoint.epoch ∧
    (displayedEpochs
      (resumeInit (some demoCheckpoint) ([0] : List ℚ) ([0] : List ℚ)).start_epoch
      10).head? = some (demoCheckpoint.epoch + 1)) :=
  ⟨by decide, resume_logic_spec demoCheckpoint [0] [0] 10 (by decide)⟩

/-- Embedding of the best-model tracking across the epoch loop: given
the initial `best_val_acc` and the successive validation accuracies, the
flag list records, epoch by epoch, whether
`if val_acc > best_val_acc` fired (and `best_val_acc` was updated to
`val_acc` before the next epoch). -/
def bestFold : ℚ → List ℚ → List Bool
  | _, [] => []
  | best, a :: rest => decide (best < a) :: bestFold (max best a) rest

/-- Whether the best snapshot was persisted after epoch `i`. -/
def savedAt (best : ℚ) (accs : List ℚ) (i : Nat) : Bool :=
  (bestFold best accs).getD i false

/-- Embedding of `torch.save(model.state_dict(), ...)` for the best
model: the persisted artifact is exactly the model parameters — no
optimizer state, no epoch number. -/
def bestSnapshot (model_state : List ℚ) : List ℚ := model_state

theorem savedAt_iff (accs : List ℚ) : ∀ (best0 : ℚ) (i : Nat), i < accs.length →
    (savedAt best0 accs i = true ↔ (accs.take i).foldl max best0 < accs.getD i 0) := by
  induction accs with
  | nil =>
    intro best0 i h
    exact absurd h (by simp)
  | cons a rest ih =>
    intro best0 i h
    cases i with
    | zero =>
      simp [savedAt, bestFold]
    | succ n =>
      have hn : n < rest.length := by simpa using h
      have h2 := ih (max best0 a) n hn
      simp only [savedAt, bestFold, List.getD_cons_succ, List.take_succ_cons,
        List.foldl_cons]
      simpa [savedAt] using h2

/-- C6: After epoch `i` the separate best snapshot is persisted exactly
when that epoch's validation accuracy strictly exceeds the best seen so
far (the running maximum of the initial best and all previous epochs'
accuracies), and the persisted artifact consists of the model
parameters only. -/
theorem best_model_save_spec (best0 : ℚ) (accs : List ℚ) (i : Nat)
    (h : i < accs.length) :
    (savedAt best0 accs i = true ↔ (accs.take i).foldl max best0 < accs.getD i 0) ∧
    (∀ ck : Checkpoint, bestSnapshot ck.model_state = ck.model_state) :=
  ⟨savedAt_iff accs best0 i h, fun _ => rfl⟩

/-- Witness for C6 on the accuracies `1/2, 1/4, 3/4` with initial best `0`. -/
theorem best_model_save_spec_witness :
    2 < ([1 / 2, 1 / 4, 3 / 4] : List ℚ).length ∧
    ((savedAt 0 ([1 / 2, 1 / 4, 3 / 4] : List ℚ) 2 = true ↔
      (([1 / 2, 1 / 4, 3 / 4] : List ℚ).take 2).foldl max 0 <
        ([1 / 2, 1 / 4, 3 / 4] : List ℚ).getD 2 0) ∧
    (∀ ck : Checkpoint, bestSnapshot ck.model_state = ck.model_state)) :=
  ⟨by decide, best_model_save_spec 0 [1 / 2, 1 / 4, 3 / 4] 2 (by decide)⟩

/-- True positives of a prediction run: pairs are (true label, predicted
label), as handed to the sklearn metrics in `test_model`. -/
def tpCount (l : List (Bool × Bool)) : Nat := l.countP (fun s => s.1 && s.2)

/-- False positives. -/
def fpCount (l : List (Bool × Bool)) : Nat := l.countP (fun s => !s.1 && s.2)

/-- False negatives. -/
def fnCount (l : List (Bool × Bool)) : Nat := l.countP (fun s => s.1 && !s.2)

/-- Number of predicted positives. -/
def predictedPositives (l : List (Bool × Bool)) : Nat := l.countP (fun s => s.2)

/-- Embedding of `precision_score(y_true, y_pred, zero_division=0)`:
`tp / (tp + fp)`, and `0` by policy when there are no predicted
positives. -/
def precisionScore (l : List (Bool × Bool)) : ℚ :=
  if tpCount l + fpCount l = 0 then 0
  else (tpCount l : ℚ) / ((tpCount l : ℚ) + (fpCount l : ℚ))

/-- Embedding of `recall_score(y_true, y_pred, zero_division=0)`. -/
def recallScore (l : List (Bool × Bool)) : ℚ :=
  if tpCount l + fnCount l = 0 then 0
  else (tpCount l : ℚ) / ((tpCount l : ℚ) + (fnCount l : ℚ))

/-- Embedding of `f1_score(y_true, y_pred, zero_division=0)` in its
`2 tp / (2 tp + fp + fn)` form, `0` by policy on a zero denominator. -/
def f1Score (l : List (Bool × Bool)) : ℚ :=
  if 2 * tpCount l + fpCount l + fnCount l = 0 then 0
  else (2 * (tpCount l : ℚ)) / (2 * (tpCount l : ℚ) + (fpCount l : ℚ) + (fnCount l : ℚ))

/-- C9: When there are zero predicted positives, the precision, recall
and F1 computations of the final test evaluation report `0` rather than
raising, for every prediction/label vector pair. -/
theorem metrics_zero_division_spec (l : List (Bool × Bool))
    (h : predictedPositives l = 0) :
    precisionScore l = 0 ∧ recallScore l = 0 ∧ f1Score l = 0 := by
  have htp : tpCount l = 0 := by
    have hle : tpCount l ≤ predictedPositives l := by
      apply List.countP_mono_left
      intro s _ hs
      simp only [Bool.and_eq_true] at hs
      exact hs.2
    omega
  have hfp : fpCount l = 0 := by
    have hle : fpCount l ≤ predictedPositives l := by
      apply List.countP_mono_left
      intro s _ hs
      simp only [Bool.and_eq_true] at hs
      exact hs.2
    omega
  refine ⟨?_, ?_, ?_⟩
  · unfold precisionScore
    rw [htp, hfp]
    norm_num
  · unfold recallScore
    rw [htp]
    by_cases hfn : fnCount l = 0
    · rw [hfn]
      norm_num
    · rw [if_neg (by omega)]
      norm_num
  · unfold f1Score
    rw [htp, hfp]
    by_cases hfn : fnCount l = 0
    · rw [hfn]
      norm_num
    · rw [if_neg (by omega)]
      norm_num

/-- Witness for C9: one actual positive predicted negative, so zero
predicted positives. -/
theorem metrics_zero_division_spec_witness :
    predictedPositives [(true, false)] = 0 ∧
    (precisionScore [(true, false)] = 0 ∧ recallScore [(true, false)] = 0 ∧
      f1Score [(true, false)] = 0) :=
  ⟨by decide, metrics_zero_division_spec [(true, false)] (by decide)⟩
